import Mathlib

/-!
Verification of the Doit Helper service (`src/main.py`), a single-endpoint
FastAPI relay.  The handler `doit_helper` is embedded as a pure function of
the configured credential, the inbound question, and the outcome of the one
outbound upstream call; the function returns the handler result together
with the list of outbound requests it issued.  Exception control flow
(`raise HTTPException`, `except httpx.TimeoutException`, `except Exception`)
is embedded with an explicit exception type and an explicit handler that
mirrors the order of the Python `except` clauses.
-/

/-- Truthiness of a Python `Optional[str]`: `None` and the empty string are
falsy, every other string is truthy.  This is the semantics of
`if not OPENROUTER_API_KEY:` and `if request.context:` in `main.py`. -/
def truthyOpt : Option String → Bool
  | none => false
  | some s => !s.isEmpty

/-- Check that the first list is a leading segment of the second
(character-by-character). -/
def startsWithList : List Char → List Char → Bool
  | [], _ => true
  | _ :: _, [] => false
  | a :: as, b :: bs => a == b && startsWithList as bs

/-- Python substring containment `needle in hay` on character lists. -/
def containsList (needle : List Char) : List Char → Bool
  | [] => needle.isEmpty
  | c :: t => startsWithList needle (c :: t) || containsList needle t

/-- Lowercased character list of a string, embedding Python `str.lower()`
(the keyword patterns are ASCII, where `Char.toLower` agrees with Python). -/
def lowerStr (s : String) : List Char := s.data.map Char.toLower

/-- Embedding of `pat in question.lower()` from `main.py`. -/
def hasSub (question : String) (pat : String) : Bool :=
  containsList pat.data (lowerStr question)

/-- Inbound request model `DoitQuestion` (`main.py` lines 29-31). -/
structure DoitQuestion where
  question : String
  context : Option String
deriving DecidableEq

/-- Response model `DoitResponse` (`main.py` lines 33-36). -/
structure DoitResponse where
  answer : String
  suggestions : Option (List String)
  helpful : Bool
deriving DecidableEq

/-- Error response produced by FastAPI from a raised `HTTPException`:
a status code and a `detail` string. -/
structure HTTPErrorResponse where
  status_code : Nat
  detail : String
deriving DecidableEq

/-- Result of one request to `POST /doit-helper` as seen by the caller. -/
inductive HandlerResult where
  | success (r : DoitResponse)
  | failure (e : HTTPErrorResponse)
deriving DecidableEq

/-- Exceptions that can arise inside the `try` block of `doit_helper`:
`httpExc` is a raised `fastapi.HTTPException`, `timeoutExc` is
`httpx.TimeoutException` from the outbound call, `lookupExc` is a failure
of `result["choices"][0]["message"]["content"]` (e.g. `KeyError`). -/
inductive PyExc where
  | httpExc (status : Nat) (detail : String)
  | timeoutExc
  | lookupExc
deriving DecidableEq

/-- Outcome of the single outbound upstream call: either it exceeds the
timeout, or it returns a status code together with the result of extracting
`json()["choices"][0]["message"]["content"]` from the body (`some s` when
that path exists and holds the string `s`, `none` when the extraction
raises). -/
inductive UpstreamOutcome where
  | timeout
  | response (status : Nat) (content : Option String)
deriving DecidableEq

/-- The outbound chat-completion request built by `doit_helper`
(`main.py` lines 103-122). -/
structure ChatRequest where
  url : String
  authorization : String
  model : String
  systemContent : String
  userContent : String
  max_tokens : Nat
  temperature : ℚ
  timeout : ℚ
deriving DecidableEq

/-- Constant `OPENROUTER_BASE_URL` (`main.py` line 40). -/
def OPENROUTER_BASE_URL : String := "https://openrouter.ai/api/v1"

/-- The fixed system prompt (`main.py` lines 75-95). -/
def system_prompt : String :=
  "Você é um especialista em Doit (Python Task Management & Automation Tool).\n" ++
  "\n" ++
  "Contexto técnico do Doit:\n" ++
  "- Doit é uma ferramenta Python para automação de tarefas e build systems\n" ++
  "- Usa arquivos dodo.py para definir tarefas\n" ++
  "- Comandos principais: doit list, doit run, doit clean, doit forget\n" ++
  "- Suporta dependências entre tarefas, cache inteligente e execução paralela\n" ++
  "- Ideal para pipelines de dados, builds automatizados e workflows\n" ++
  "- Configuração via YAML, Python ou linha de comando\n" ++
  "- Integração com Make, CMake, SCons e outras ferramentas\n" ++
  "\n" ++
  "Exemplos comuns:\n" ++
  "1. Instalação: pip install doit\n" ++
  "2. Criar dodo.py com def task_hello(): return \x7b\x27actions\x27: [\x27echo Hello\x27]\x7d\n" ++
  "3. Executar: doit run\n" ++
  "4. Listar tarefas: doit list\n" ++
  "\n" ++
  "Responda de forma clara, amigável e com passo a passo detalhado.\n" ++
  "Se possível, inclua comandos prontos e links úteis.\n" ++
  "Sempre forneça exemplos práticos e soluções completas.\n" ++
  "Use tom técnico mas acessível, em português brasileiro."

/-- Installation hint 1 (`main.py` line 139). -/
def s_install_1 : String := "Teste a instalação com \x27doit --version\x27"

/-- Installation hint 2 (`main.py` line 140). -/
def s_install_2 : String := "Consulte https://pydoit.org/install.html"

/-- YAML hint 1 (`main.py` line 143). -/
def s_yaml_1 : String := "Valide seu YAML com ferramentas online antes de usar"

/-- YAML hint 2 (`main.py` line 144). -/
def s_yaml_2 : String := "Use doit.tools.config_changed para detectar mudanças"

/-- Debugging hint 1 (`main.py` line 147). -/
def s_error_1 : String := "Execute \x27doit clean\x27 para limpar cache"

/-- Debugging hint 2 (`main.py` line 148). -/
def s_error_2 : String := "Use \x27doit -v 2\x27 para debug detalhado"

/-- Fallback documentation hint (`main.py` line 151). -/
def s_fallback : String := "Consulte a documentação oficial do Doit em https://pydoit.org/"

/-- Suggestion generation from `main.py` lines 135-151: scan the lowercased
question for fixed substrings, appending each matched group's two hints in
order, and fall back to the one documentation hint when nothing matched. -/
def generate_suggestions (question : String) : List String :=
  let suggestions : List String := []
  let suggestions :=
    if hasSub question "install" then suggestions ++ [s_install_1, s_install_2]
    else suggestions
  let suggestions :=
    if hasSub question "yaml" then suggestions ++ [s_yaml_1, s_yaml_2]
    else suggestions
  let suggestions :=
    if hasSub question "erro" || hasSub question "error" then suggestions ++ [s_error_1, s_error_2]
    else suggestions
  if suggestions.isEmpty then [s_fallback] else suggestions

/-- Body of the `try` block of `doit_helper` (`main.py` lines 73-157):
build the user message, issue the outbound call, and either return the
`DoitResponse` or raise an exception.  Also returns the list of outbound
requests issued (always the one call here). -/
def tryBlock (key : String) (req : DoitQuestion) (u : UpstreamOutcome) :
    Except PyExc DoitResponse × List ChatRequest :=
  let user_message :=
    if truthyOpt req.context then
      "Contexto: " ++ req.context.getD "" ++ "\n\nPergunta: " ++ req.question
    else req.question
  let outbound : ChatRequest :=
    { url := OPENROUTER_BASE_URL ++ "/chat/completions"
      authorization := "Bearer " ++ key
      model := "anthropic/claude-3-haiku"
      systemContent := system_prompt
      userContent := user_message
      max_tokens := 1000
      temperature := 7/10
      timeout := 30 }
  match u with
  | .timeout => (.error .timeoutExc, [outbound])
  | .response status content =>
    if status ≠ 200 then
      (.error (.httpExc 500 "Error communicating with AI service"), [outbound])
    else
      match content with
      | none => (.error .lookupExc, [outbound])
      | some ai_response =>
        (.ok { answer := ai_response
               suggestions := some (generate_suggestions req.question)
               helpful := true }, [outbound])

/-- The `except` clauses of `doit_helper` (`main.py` lines 159-170), in
source order: `httpx.TimeoutException` maps to 504; every other exception —
including an `HTTPException` raised inside the `try` block — is caught by
the broad `except Exception` and mapped to 500 with detail
"Internal server error". -/
def mapExc : Except PyExc DoitResponse → HandlerResult
  | .ok r => .success r
  | .error .timeoutExc =>
    .failure { status_code := 504, detail := "AI service timeout - please try again" }
  | .error _ =>
    .failure { status_code := 500, detail := "Internal server error" }

/-- The `POST /doit-helper` handler (`main.py` lines 60-170): reject when
the credential is falsy (this `HTTPException` is raised outside the `try`
block, so it propagates as-is), otherwise run the `try` block and map any
exception through the `except` clauses.  Returns the caller-visible result
and the list of outbound requests issued. -/
def doit_helper (apiKey : Option String) (req : DoitQuestion) (u : UpstreamOutcome) :
    HandlerResult × List ChatRequest :=
  if truthyOpt apiKey = false then
    (.failure { status_code := 500, detail := "OpenRouter API key not configured" }, [])
  else
    let res := tryBlock (apiKey.getD "") req u
    (mapExc res.1, res.2)

/-- Body of the `GET /health` response (`main.py` lines 50-58). -/
structure HealthInfo where
  status : String
  service : String
  version : String
  openrouter_configured : Bool
deriving DecidableEq

/-- The `GET /health` handler (`main.py` lines 50-58): always HTTP 200 with
a static body reporting whether the credential is configured (truthy). -/
def health_check (apiKey : Option String) : Nat × HealthInfo :=
  (200,
   { status := "healthy"
     service := "doit-helper"
     version := "1.0.0"
     openrouter_configured := truthyOpt apiKey })

/-- Helper: the suggestion list is never empty (the fallback hint is
appended whenever no keyword matched). -/
theorem generate_suggestions_ne_nil (q : String) : generate_suggestions q ≠ [] := by
  cases hA : hasSub q "install" <;> cases hB : hasSub q "yaml" <;>
    cases hC : (hasSub q "erro" || hasSub q "error") <;>
      simp [generate_suggestions, hA, hB, hC]

/-- Helper: the outbound-call trace of the try block is always exactly one
chat-completion request, with the user message built from the context and
question and the fixed constants. -/
theorem tryBlock_snd (key : String) (req : DoitQuestion) (u : UpstreamOutcome) :
    (tryBlock key req u).2 =
      [{ url := OPENROUTER_BASE_URL ++ "/chat/completions"
         authorization := "Bearer " ++ key
         model := "anthropic/claude-3-haiku"
         systemContent := system_prompt
         userContent :=
           if truthyOpt req.context then
             "Contexto: " ++ req.context.getD "" ++ "\n\nPergunta: " ++ req.question
           else req.question
         max_tokens := 1000
         temperature := 7/10
         timeout := 30 }] := by
  cases u with
  | timeout => rfl
  | response status content =>
    by_cases hs : status = 200
    · subst hs
      cases content <;> simp [tryBlock]
    · simp [tryBlock, hs]

/-- Helper: every successful handler result carries exactly the generated
suggestion list for the original question. -/
theorem handler_success_suggestions (key : Option String) (req : DoitQuestion)
    (u : UpstreamOutcome) (r : DoitResponse)
    (h : (doit_helper key req u).1 = .success r) :
    r.suggestions = some (generate_suggestions req.question) := by
  by_cases hk : truthyOpt key = false
  · simp [doit_helper, hk] at h
  · cases u with
    | timeout => simp [doit_helper, tryBlock, mapExc, hk] at h
    | response status content =>
      by_cases hs : status = 200
      · subst hs
        cases content with
        | none => simp [doit_helper, tryBlock, mapExc, hk] at h
        | some c =>
          simp [doit_helper, tryBlock, mapExc, hk] at h
          rw [← h]
      · simp [doit_helper, tryBlock, mapExc, hk, hs] at h

/-- Helper: an empty-string context makes the try block behave exactly as
an absent context (Python truthiness of `request.context`). -/
theorem tryBlock_empty_ctx (key : String) (q : String) (u : UpstreamOutcome) :
    tryBlock key ⟨q, some ""⟩ u = tryBlock key ⟨q, none⟩ u := by
  cases u <;> rfl

/-- C1: for every question (any context, credential configured, upstream
success), the handler derives the suggestions by scanning the lowercased
question for the fixed substrings in the order install, yaml, erro/error,
appending each matched group's two hints, and when no substring occurs the
suggestions are exactly the one-element fallback documentation hint list. -/
theorem suggestions_follow_keyword_rules (key : Option String) (q : String)
    (ctx : Option String) (content : String) (hk : truthyOpt key = true) :
    (doit_helper key ⟨q, ctx⟩ (.response 200 (some content))).1 =
      .success
        { answer := content
          suggestions := some (
            if ((if hasSub q "install" then [s_install_1, s_install_2] else []) ++
                (if hasSub q "yaml" then [s_yaml_1, s_yaml_2] else []) ++
                (if hasSub q "erro" || hasSub q "error" then [s_error_1, s_error_2] else []))
               = ([] : List String)
            then [s_fallback]
            else ((if hasSub q "install" then [s_install_1, s_install_2] else []) ++
                  (if hasSub q "yaml" then [s_yaml_1, s_yaml_2] else []) ++
                  (if hasSub q "erro" || hasSub q "error" then [s_error_1, s_error_2] else [])))
          helpful := true } := by
  have hk' : ¬ (truthyOpt key = false) := by simp [hk]
  cases hA : hasSub q "install" <;> cases hB : hasSub q "yaml" <;>
    cases hC : (hasSub q "erro" || hasSub q "error") <;>
      simp [doit_helper, tryBlock, mapExc, generate_suggestions, hk', hA, hB, hC]

/-- Witness for C1 at a concrete install-question. -/
theorem suggestions_follow_keyword_rules_witness :
    truthyOpt (some "k") = true ∧
    (doit_helper (some "k") ⟨"como fazer o install?", none⟩ (.response 200 (some "resposta"))).1 =
      .success { answer := "resposta"
                 suggestions := some [s_install_1, s_install_2]
                 helpful := true } :=
  ⟨rfl, suggestions_follow_keyword_rules (some "k") "como fazer o install?" none "resposta" rfl⟩

/-- C2 counterexample: the question "install yaml error" contains both
"yaml" and "error", yet the handler produces six hints (the install group
is also appended), not four. -/
theorem yaml_error_four_hints_cex :
    hasSub "install yaml error" "yaml" = true ∧
    hasSub "install yaml error" "error" = true ∧
    (doit_helper (some "k") ⟨"install yaml error", none⟩ (.response 200 (some "ok"))).1 =
      .success
        { answer := "ok"
          suggestions := some [s_install_1, s_install_2, s_yaml_1, s_yaml_2, s_error_1, s_error_2]
          helpful := true } ∧
    [s_install_1, s_install_2, s_yaml_1, s_yaml_2, s_error_1, s_error_2].length ≠ 4 :=
  ⟨rfl, rfl, rfl, by decide⟩

/-- C2 amended: for every question whose lowercased text contains both
"yaml" and "error" and does not contain "install", the suggestions are
exactly the two YAML hints followed by the two error hints, four in total. -/
theorem yaml_error_without_install_four_hints (key : Option String) (q : String)
    (ctx : Option String) (content : String) (hk : truthyOpt key = true)
    (hY : hasSub q "yaml" = true) (hE : hasSub q "error" = true)
    (hI : hasSub q "install" = false) :
    (doit_helper key ⟨q, ctx⟩ (.response 200 (some content))).1 =
      .success { answer := content
                 suggestions := some [s_yaml_1, s_yaml_2, s_error_1, s_error_2]
                 helpful := true } := by
  have hk' : ¬ (truthyOpt key = false) := by simp [hk]
  simp [doit_helper, tryBlock, mapExc, generate_suggestions, hk', hY, hE, hI]

/-- Witness for the amended C2 at the question "yaml error". -/
theorem yaml_error_without_install_four_hints_witness :
    truthyOpt (some "k") = true ∧
    hasSub "yaml error" "yaml" = true ∧
    hasSub "yaml error" "error" = true ∧
    hasSub "yaml error" "install" = false ∧
    (doit_helper (some "k") ⟨"yaml error", none⟩ (.response 200 (some "ok"))).1 =
      .success { answer := "ok"
                 suggestions := some [s_yaml_1, s_yaml_2, s_error_1, s_error_2]
                 helpful := true } :=
  ⟨rfl, rfl, rfl, rfl,
   yaml_error_without_install_four_hints (some "k") "yaml error" none "ok" rfl rfl rfl rfl⟩

/-- C3 evaluated at the failing input: when the upstream call returns a
non-success status (here 502), the `HTTPException(500, "Error communicating
with AI service")` raised inside the `try` block is caught by the broad
`except Exception` clause, so the caller sees 500 with detail
"Internal server error" — the generic Internal kind, not the UpstreamError
detail the code builds at `main.py` lines 126-129. -/
theorem upstream_error_swallowed_by_catchall :
    (doit_helper (some "k") ⟨"q", none⟩ (.response 502 (some "Bad Gateway"))).1 =
      .failure { status_code := 500, detail := "Internal server error" } ∧
    "Internal server error" ≠ "Error communicating with AI service" :=
  ⟨rfl, by decide⟩

/-- C4: while the credential is falsy, the handler fails with 500 and the
configuration detail, for every question and upstream behaviour, and issues
no outbound call. -/
theorem unset_key_rejects_without_call (key : Option String) (req : DoitQuestion)
    (u : UpstreamOutcome) (hk : truthyOpt key = false) :
    doit_helper key req u =
      (.failure { status_code := 500, detail := "OpenRouter API key not configured" }, []) := by
  simp [doit_helper, hk]

/-- Witness for C4 with the credential absent. -/
theorem unset_key_rejects_without_call_witness :
    truthyOpt none = false ∧
    doit_helper none ⟨"como instalar?", some "ctx"⟩ .timeout =
      (.failure { status_code := 500, detail := "OpenRouter API key not configured" }, []) :=
  ⟨rfl, unset_key_rejects_without_call none ⟨"como instalar?", some "ctx"⟩ .timeout rfl⟩

/-- C5: whenever the outbound call exceeds the timeout, the dedicated
`except httpx.TimeoutException` clause maps the failure to HTTP 504 with
the generic try-again detail. -/
theorem timeout_maps_to_504 (key : Option String) (req : DoitQuestion)
    (hk : truthyOpt key = true) :
    (doit_helper key req .timeout).1 =
      .failure { status_code := 504, detail := "AI service timeout - please try again" } := by
  have hk' : ¬ (truthyOpt key = false) := by simp [hk]
  simp [doit_helper, tryBlock, mapExc, hk']

/-- Witness for C5 at a concrete request. -/
theorem timeout_maps_to_504_witness :
    truthyOpt (some "k") = true ∧
    (doit_helper (some "k") ⟨"oi", none⟩ .timeout).1 =
      .failure { status_code := 504, detail := "AI service timeout - please try again" } :=
  ⟨rfl, timeout_maps_to_504 (some "k") ⟨"oi", none⟩ rfl⟩

/-- C6 counterexample: with the credential configured and the upstream
returning success whose first choice has empty message content, the handler
returns a successful response whose answer is the empty string — the answer
is not always non-empty. -/
theorem empty_content_gives_empty_answer :
    (doit_helper (some "k") ⟨"q", none⟩ (.response 200 (some ""))).1 =
      .success { answer := "", suggestions := some [s_fallback], helpful := true } ∧
    ("" : String).length = 0 :=
  ⟨rfl, rfl⟩

/-- C6 amended: for every valid question with credential configured and the
upstream returning success with non-empty first-choice message content, the
handler returns helpful true and that content — hence a non-empty answer —
as the answer text. -/
theorem success_returns_content_and_helpful (key : Option String) (q : String)
    (ctx : Option String) (content : String) (hk : truthyOpt key = true)
    (hc : content ≠ "") :
    (doit_helper key ⟨q, ctx⟩ (.response 200 (some content))).1 =
      .success { answer := content
                 suggestions := some (generate_suggestions q)
                 helpful := true } ∧ content ≠ "" := by
  have hk' : ¬ (truthyOpt key = false) := by simp [hk]
  exact ⟨by simp [doit_helper, tryBlock, mapExc, hk'], hc⟩

/-- Witness for the amended C6 at a concrete success. -/
theorem success_returns_content_and_helpful_witness :
    truthyOpt (some "k") = true ∧
    ("resposta" : String) ≠ "" ∧
    ((doit_helper (some "k") ⟨"oi", none⟩ (.response 200 (some "resposta"))).1 =
       .success { answer := "resposta", suggestions := some [s_fallback], helpful := true } ∧
     ("resposta" : String) ≠ "") :=
  ⟨rfl, by decide,
   success_returns_content_and_helpful (some "k") "oi" none "resposta" rfl (by decide)⟩

/-- C7: for every request handled with the credential configured, the
outbound trace is exactly one chat request whose user message is
"Contexto: \x7bcontext\x7d\n\nPergunta: \x7bquestion\x7d" when a non-empty
context is present and the question verbatim otherwise, and whose constants
are max tokens 1000, temperature 0.7 and timeout 30. -/
theorem outbound_message_and_constants (key : Option String) (q : String)
    (ctx : Option String) (u : UpstreamOutcome) (hk : truthyOpt key = true) :
    ((doit_helper key ⟨q, ctx⟩ u).2).map
        (fun c => (c.userContent, c.max_tokens, c.temperature, c.timeout)) =
      [((match ctx with
         | some s => if s.isEmpty then q else "Contexto: " ++ s ++ "\n\nPergunta: " ++ q
         | none => q), 1000, (7/10 : ℚ), (30 : ℚ))] := by
  have hk' : ¬ (truthyOpt key = false) := by simp [hk]
  have h2 : (doit_helper key ⟨q, ctx⟩ u).2 = (tryBlock (key.getD "") ⟨q, ctx⟩ u).2 := by
    simp [doit_helper, hk']
  rw [h2, tryBlock_snd]
  cases ctx with
  | none => simp [truthyOpt]
  | some s => by_cases hs : s.isEmpty <;> simp [truthyOpt, hs]

/-- Witness for C7 with a present context and a timing-out upstream. -/
theorem outbound_message_and_constants_witness :
    truthyOpt (some "k") = true ∧
    ((doit_helper (some "k") ⟨"oi", some "ct"⟩ .timeout).2).map
        (fun c => (c.userContent, c.max_tokens, c.temperature, c.timeout)) =
      [("Contexto: ct\n\nPergunta: oi", 1000, (7/10 : ℚ), (30 : ℚ))] :=
  ⟨rfl, outbound_message_and_constants (some "k") "oi" (some "ct") .timeout rfl⟩

/-- C8: `GET /health` always returns status 200; it reports
`openrouter_configured` as false when the credential is unset and true when
it is set (to a non-empty token).  The handler takes no upstream input, so
the report is independent of upstream reachability. -/
theorem health_reports_configured (key : String) (hk : key ≠ "") :
    (health_check none).1 = 200 ∧
    (health_check (some key)).1 = 200 ∧
    (health_check none).2.openrouter_configured = false ∧
    (health_check (some key)).2.openrouter_configured = true := by
  refine ⟨rfl, rfl, rfl, ?_⟩
  have hb : key.isEmpty = false := by
    cases hb : key.isEmpty
    · rfl
    · exact absurd ((String.isEmpty_iff key).mp hb) hk
  simp [health_check, truthyOpt, hb]

/-- Witness for C8 with a concrete non-empty credential. -/
theorem health_reports_configured_witness :
    ("k" : String) ≠ "" ∧
    ((health_check none).1 = 200 ∧
     (health_check (some "k")).1 = 200 ∧
     (health_check none).2.openrouter_configured = false ∧
     (health_check (some "k")).2.openrouter_configured = true) :=
  ⟨by decide, health_reports_configured "k" (by decide)⟩

/-- C9: a context equal to the empty string is falsy in Python, so the
handler behaves exactly as with an absent context and the outbound user
message is the question verbatim. -/
theorem empty_context_same_as_absent (key : Option String) (q : String)
    (u : UpstreamOutcome) (hk : truthyOpt key = true) :
    doit_helper key ⟨q, some ""⟩ u = doit_helper key ⟨q, none⟩ u ∧
    ((doit_helper key ⟨q, some ""⟩ u).2).map (fun c => c.userContent) = [q] := by
  have hk' : ¬ (truthyOpt key = false) := by simp [hk]
  constructor
  · simp [doit_helper, tryBlock_empty_ctx]
  · have h2 : (doit_helper key ⟨q, some ""⟩ u).2 = (tryBlock (key.getD "") ⟨q, some ""⟩ u).2 := by
      simp [doit_helper, hk']
    rw [h2, tryBlock_snd]
    simp [truthyOpt, String.isEmpty_iff]

/-- Witness for C9 at a concrete request with empty context. -/
theorem empty_context_same_as_absent_witness :
    truthyOpt (some "k") = true ∧
    (doit_helper (some "k") ⟨"oi", some ""⟩ .timeout = doit_helper (some "k") ⟨"oi", none⟩ .timeout ∧
     ((doit_helper (some "k") ⟨"oi", some ""⟩ .timeout).2).map (fun c => c.userContent) = ["oi"]) :=
  ⟨rfl, empty_context_same_as_absent (some "k") "oi" .timeout rfl⟩

/-- C10: every successful response of `POST /doit-helper` carries a
suggestions list that is neither null nor empty, even though the response
model declares the field optional. -/
theorem success_suggestions_nonempty (key : Option String) (req : DoitQuestion)
    (u : UpstreamOutcome) (r : DoitResponse)
    (h : (doit_helper key req u).1 = .success r) :
    r.suggestions ≠ none ∧ r.suggestions.getD [] ≠ [] := by
  have hs : r.suggestions = some (generate_suggestions req.question) :=
    handler_success_suggestions key req u r h
  rw [hs]
  exact ⟨by simp, by simp [generate_suggestions_ne_nil req.question]⟩

/-- Witness for C10 at a concrete successful request. -/
theorem success_suggestions_nonempty_witness :
    ((doit_helper (some "k") ⟨"oi", none⟩ (.response 200 (some "resposta"))).1 =
       .success { answer := "resposta", suggestions := some [s_fallback], helpful := true }) ∧
    ((some [s_fallback] : Option (List String)) ≠ none ∧
     (some [s_fallback] : Option (List String)).getD [] ≠ []) :=
  ⟨rfl,
   success_suggestions_nonempty (some "k") ⟨"oi", none⟩ (.response 200 (some "resposta"))
     { answer := "resposta", suggestions := some [s_fallback], helpful := true } rfl⟩
